import Mathlib

/-!
Verification of the OLED RotorHazard display plugin
(`custom_plugins/oled_rotorhazard_display/oled_display.py`).

The Python class `OLEDDisplay` is embedded shallowly:

* machine state (`self.show_race_info`, `self.last_lap_info`,
  `self.race_info_timeout`, `self.voltage_monitor_start_time`,
  `self.burn_in_protection_active`, `self.display_enabled`) becomes the
  structure `ControllerState`;
* wall-clock time (`time.time()`) is a rational number passed explicitly
  to each function that reads it; `time.strftime` output is passed as a
  string parameter;
* the external `rhapi` provider is the structure `RHApi`; attribute
  accesses that can be missing, falsy or raising are modelled with
  `Option` and `PyRes` so that every `try/except` of the source has an
  explicit error case to catch;
* a rendered frame is the list of drawing operations issued to the luma
  canvas, in program order (`DrawOp.text`, `DrawOp.line`); the random
  burn-in coordinates are taken as parameters (the random source is
  external input);
* Python float values of sensor readings are modelled as rationals; the
  fixed-point formatting `f"{v:.2f}"` is modelled with round-half-up on
  exact rationals (binary-float rounding edge cases are outside the
  claims under verification).
-/

namespace OledRH

/-! ### String helpers (Python `in`, `.lower()`, slicing) -/

/-- `listStartsWith needle hay` — `hay` begins with `needle`. -/
def listStartsWith : List Char → List Char → Bool
  | [], _ => true
  | _ :: _, [] => false
  | n :: ns, h :: hs => n == h && listStartsWith ns hs

/-- `listContainsSeq needle hay` — `needle` occurs contiguously in `hay`
(Python's `needle in hay` on strings). -/
def listContainsSeq (needle : List Char) : List Char → Bool
  | [] => needle.isEmpty
  | h :: hs => listStartsWith needle (h :: hs) || listContainsSeq needle hs

/-- Python `'voltage' in str(key).lower()`. -/
def containsVoltage (key : String) : Bool :=
  listContainsSeq "voltage".toList (key.toList.map Char.toLower)

/-- First-match association lookup (Python dict read `d[k]` / `k in d`;
keys of a dict are unique, so first match is the match). -/
def dictGet {α : Type} : List (String × α) → String → Option α
  | [], _ => none
  | (k, v) :: rest, key => if k == key then some v else dictGet rest key

/-! ### Data model of the provider (`rhapi`) -/

/-- Result of a Python expression that may raise: `raises` is an
exception propagating to the nearest `except`. -/
inductive PyRes (α : Type)
  | raises
  | ok (val : α)
deriving DecidableEq

/-- One reading value as stored under a key of a sensor's readings dict:
`{'value': ..., 'units': ...}`. -/
structure Reading where
  value : ℚ
  units : String
deriving DecidableEq

/-- A sensor's readings dict: key (e.g. `'voltage'`, `'current'`) to
reading. -/
abbrev Readings := List (String × Reading)

/-- One entry of `rhapi.sensors.sensors_dict`.  `hasGetReadings` models
`hasattr(sensor_obj, 'getReadings')`; `getReadings` returning
`.error ()` models the call raising (caught per-sensor with `continue`),
`.ok none` models a falsy result (`None` or empty dict). -/
structure Sensor where
  hasGetReadings : Bool
  getReadings : PyRes (Option Readings)
deriving DecidableEq

/-- State of `rhapi.sensors` as observed by the plugin.
`absent` covers `hasattr(rhapi, 'sensors')` false or `rhapi.sensors`
falsy; `dictRaises` covers `rhapi.sensors.sensors_dict` raising. -/
inductive SensorsState
  | absent
  | dictRaises
  | avail (sensors_dict : List (String × Sensor))
deriving DecidableEq

/-- One element of `results['by_race_time']`; each field is a dict key
that may be absent. -/
structure PilotResult where
  callsign : Option String
  name : Option String
  pilot_id : Option String
  fastest_lap : Option String
deriving DecidableEq

/-- `rhapi.race.results` when it is a truthy dict: `by_race_time = none`
models the key being absent. -/
structure RaceResults where
  by_race_time : Option (List PilotResult)
deriving DecidableEq

/-- `rhapi.race`.  `status`/`results` return `.error ()` when the
attribute access raises; the inner `Option` is Python falsiness
(`None`/`0`/empty). -/
structure Race where
  status : PyRes (Option Int)
  results : PyRes (Option RaceResults)
deriving DecidableEq

/-- The external provider.  `race = none` covers `hasattr(rhapi,'race')`
false or `rhapi.race` falsy. -/
structure RHApi where
  sensors : SensorsState
  race : Option Race
deriving DecidableEq

/-! ### Telemetry adapter (`get_voltage_data`, `get_race_status`,
`is_race_active`) -/

/-- The per-sensor body of the loop in `get_voltage_data`: returns the
readings to store when the sensor passes
`if readings and any('voltage' in str(key).lower() for key in readings.keys())`,
and `none` when it is skipped (no `getReadings`, raised, falsy or no
voltage-like key). -/
def sensorKeeps (s : Sensor) : Option Readings :=
  if s.hasGetReadings then
    match s.getReadings with
    | .raises => none
    | .ok none => none
    | .ok (some readings) =>
      if !readings.isEmpty && readings.any (fun kv => containsVoltage kv.1) then
        some readings
      else
        none
  else none

/-- `OLEDDisplay.get_voltage_data`: `None` when the sensor system is
absent, raises, has a falsy `sensors_dict`, or when no sensor passes the
voltage filter; otherwise the insertion-ordered dict of kept sensors. -/
def get_voltage_data (api : RHApi) : Option (List (String × Readings)) :=
  match api.sensors with
  | .absent => none
  | .dictRaises => none
  | .avail sensors_dict =>
    if sensors_dict.isEmpty then
      none
    else
      let voltage_data := sensors_dict.filterMap
        (fun p => (sensorKeeps p.2).map (fun r => (p.1, r)))
      if voltage_data.isEmpty then none else some voltage_data

/-- `OLEDDisplay.get_race_status`: the header text for a truthy, known
status, else `None`; any raise is caught to `None`. -/
def get_race_status (api : RHApi) : Option String :=
  match api.race with
  | none => none
  | some r =>
    match r.status with
    | .raises => none
    | .ok none => none
    | .ok (some st) =>
      if st ≠ 0 then
        if st = 1 then some "Race: Staging"
        else if st = 2 then some "Race: Running"
        else if st = 3 then some "Race: Finished"
        else none
      else none

/-- `OLEDDisplay.is_race_active`: status in `[1, 2]`; any raise is caught
to `False`. -/
def is_race_active (api : RHApi) : Bool :=
  match api.race with
  | none => false
  | some r =>
    match r.status with
    | .raises => false
    | .ok none => false
    | .ok (some st) => st = 1 || st = 2

/-! ### Controller state and the per-tick decision (`update_display`) -/

/-- The dict stored in `self.last_lap_info` by `show_lap_completion`.
All four keys are always stored; `position` keeps the (possibly `None`)
argument, so the key `'position'` is present even when no position was
supplied. -/
structure LapInfo where
  pilot_name : String
  lap_number : Nat
  lap_time : String
  position : Option Nat
deriving DecidableEq

/-- The four display modes of the spec's state machine, identified with
the rendering routine `update_display` dispatches to:
`LapNotice = display_race_info`, `RaceStanding = display_race_status`,
`BurnInGuard = display_burn_in_protection`,
`VoltageMonitor = display_normal_voltage_monitor`. -/
inductive DisplayMode
  | VoltageMonitor
  | RaceStanding
  | LapNotice
  | BurnInGuard
deriving DecidableEq

/-- The mutable fields of `OLEDDisplay` that `update_display` and
`show_lap_completion` read or write. -/
structure ControllerState where
  display_enabled : Bool
  show_race_info : Bool
  last_lap_info : Option LapInfo
  race_info_timeout : ℚ
  voltage_monitor_start_time : ℚ
  burn_in_protection_active : Bool
deriving DecidableEq

/-- `OLEDDisplay.show_lap_completion(pilot_name, lap_number, lap_time,
position=None)` called at wall-clock time `now`: stores the lap dict,
sets `show_race_info` and arms the 5-second timeout. -/
def show_lap_completion (now : ℚ) (pilot_name : String) (lap_number : Nat)
    (lap_time : String) (position : Option Nat) (s : ControllerState) :
    ControllerState :=
  { s with
    last_lap_info := some ⟨pilot_name, lap_number, lap_time, position⟩
    show_race_info := true
    race_info_timeout := now + 5 }

/-- One call of `OLEDDisplay.update_display` at wall-clock time `now`:
returns the updated state and the mode whose rendering routine was
invoked (`none` when the display is disabled and the call returns
immediately).  The guard
`not hasattr(self, 'voltage_monitor_start_time')` of the source is
always false after `__init__`, so only the `== 0` test remains. -/
def update_display (now : ℚ) (api : RHApi) (s : ControllerState) :
    ControllerState × Option DisplayMode :=
  if s.display_enabled = false then
    (s, none)
  else if s.show_race_info = true ∧ now < s.race_info_timeout then
    (s, some .LapNotice)
  else if is_race_active api then
    ({ s with voltage_monitor_start_time := now }, some .RaceStanding)
  else
    let s1 := { s with show_race_info := false, last_lap_info := none }
    let s2 :=
      if s1.voltage_monitor_start_time = 0 then
        { s1 with voltage_monitor_start_time := now }
      else s1
    let voltage_monitor_duration := now - s2.voltage_monitor_start_time
    let s3 := { s2 with
      burn_in_protection_active := decide (voltage_monitor_duration > 60) }
    if voltage_monitor_duration > 60 then
      (s3, some .BurnInGuard)
    else
      (s3, some .VoltageMonitor)

/-- The final state after a sequence of ticks `(time, provider state)`. -/
def runTicks (s : ControllerState) : List (ℚ × RHApi) → ControllerState
  | [] => s
  | (t, api) :: rest => runTicks (update_display t api s).1 rest

/-- The mode rendered by each tick of a sequence. -/
def tickModes (s : ControllerState) : List (ℚ × RHApi) → List (Option DisplayMode)
  | [] => []
  | (t, api) :: rest =>
    (update_display t api s).2 :: tickModes (update_display t api s).1 rest

/-! ### Render surface: frames as lists of drawing operations -/

/-- One luma-canvas call issued while drawing a frame: `draw.text((x,y),s)`
or `draw.line([(x1,y1),(x2,y2)])`. -/
inductive DrawOp
  | text (x y : Nat) (s : String)
  | line (x1 y1 x2 y2 : Nat)
deriving DecidableEq

/-- Python fixed-point formatting `f"{q:.d f}"` on an exact rational:
round half up (the source formats binary doubles with round half to
even; the difference is confined to exact ties, which no claim touches). -/
def fmtFixed (d : Nat) (q : ℚ) : String :=
  let n : ℤ := ⌊|q| * (10 : ℚ) ^ d + 1 / 2⌋
  let ip := n / (10 : ℤ) ^ d
  let fp := (n % (10 : ℤ) ^ d).toNat
  let digits := toString fp
  let frac := (List.replicate (d - digits.length) '0').asString ++ digits
  (if q < 0 then "-" else "") ++ toString ip ++ "." ++ frac

/-- Python `f"{x}"` on an `Optional[int]`: `None` prints as `"None"`. -/
def pyShowOptNat : Option Nat → String
  | none => "None"
  | some n => toString n

/-! ### `display_race_info` (the LapNotice view) -/

/-- `OLEDDisplay.display_race_info`.  The guard on `last_lap_info`
mirrors `if not self.display_enabled or not self.last_lap_info: return`.
The `'position' in self.last_lap_info` test of the source is always true
because `show_lap_completion` always stores the `'position'` key (with
the value `None` when no position was supplied), so the position line is
drawn unconditionally and a missing position prints as `None`. -/
def display_race_info (display_enabled : Bool) (last_lap_info : Option LapInfo) :
    List DrawOp :=
  if display_enabled = false then []
  else
    match last_lap_info with
    | none => []
    | some info =>
      [ DrawOp.text 5 0 "LAP COMPLETED",
        DrawOp.line 0 13 128 13,
        DrawOp.text 5 18 ("Pilot: " ++ info.pilot_name),
        DrawOp.text 5 30 ("Lap: " ++ toString info.lap_number),
        DrawOp.text 5 42 ("Time: " ++ info.lap_time),
        DrawOp.text 5 54 ("Position: " ++ pyShowOptNat info.position) ]

/-! ### `display_race_status` (the RaceStanding view) -/

/-- `pilot_result.get('callsign', pilot_result.get('name',
f'Pilot {pilot_result.get("pilot_id", "?")}'))`. -/
def standingPilotName (p : PilotResult) : String :=
  p.callsign.getD (p.name.getD ("Pilot " ++ p.pilot_id.getD "?"))

/-- `if len(pilot_name) > 6: pilot_name = pilot_name[:6]`. -/
def truncatedName (s : String) : String :=
  if s.length > 6 then s.take 6 else s

/-- `if fastest_lap and fastest_lap != 'N/A': if fastest_lap.startswith('0:'):
fastest_lap = fastest_lap[2:]` (`startswith` via the character-list
helper). -/
def strippedLap (s : String) : String :=
  if s ≠ "" ∧ s ≠ "N/A" then
    if listStartsWith "0:".toList s.toList then s.drop 2 else s
  else s

/-- The standings line for the `i`-th pilot result:
`f"{position}.{pilot_name} {fastest_lap}"` with `position = i + 1`. -/
def fmtStandingLine (i : Nat) (p : PilotResult) : String :=
  let position := i + 1
  let pilot_name := truncatedName (standingPilotName p)
  let fastest_lap := strippedLap (p.fastest_lap.getD "N/A")
  s!"{position}.{pilot_name} {fastest_lap}"

/-- The standings loop: one text op per pilot at `y = 16 + 10 * i`,
stopping at index 4 (`if i >= 4: break`). -/
def standingsOps (i : Nat) : List PilotResult → List DrawOp
  | [] => []
  | p :: rest =>
    if i ≥ 4 then []
    else DrawOp.text 5 (16 + 10 * i) (fmtStandingLine i p) :: standingsOps (i + 1) rest

/-- `OLEDDisplay.display_race_status`: header with the race-status text
(or `"Race Active"`), then — when `results` is a truthy dict holding
`'by_race_time'` — the first four standings; otherwise the
`"Waiting for"/"race data..."` placeholder; a raise while reading the
results is caught to the `"Race in progress"/"Monitoring laps..."`
lines; a missing `rhapi.race` draws no body at all. -/
def display_race_status (display_enabled : Bool) (api : RHApi) : List DrawOp :=
  if display_enabled = false then []
  else
    let race_status := (get_race_status api).getD "Race Active"
    let header := [DrawOp.text 5 0 race_status, DrawOp.line 0 13 128 13]
    let body :=
      match api.race with
      | none => []
      | some r =>
        match r.results with
        | .raises =>
          [DrawOp.text 5 16 "Race in progress", DrawOp.text 5 26 "Monitoring laps..."]
        | .ok none =>
          [DrawOp.text 5 16 "Waiting for", DrawOp.text 5 26 "race data..."]
        | .ok (some res) =>
          match res.by_race_time with
          | none =>
            [DrawOp.text 5 16 "Waiting for", DrawOp.text 5 26 "race data..."]
          | some lst => standingsOps 0 (lst.take 4)
    header ++ body

/-! ### `display_normal_voltage_monitor` (the VoltageMonitor view) -/

/-- The sensor loop of `display_normal_voltage_monitor`: a sensor draws
its `'voltage'` reading (key looked up exactly) and, if present, its
`'current'` reading; a sensor without the exact `'voltage'` key draws
nothing and does not advance `y_pos`; the loop breaks once
`y_pos > height - 20 = 44` after a drawn sensor. -/
def voltageLines : List (String × Readings) → Nat → List DrawOp
  | [], _ => []
  | (sensor_name, readings) :: rest, y_pos =>
    match dictGet readings "voltage" with
    | none => voltageLines rest y_pos
    | some v =>
      let voltage_text := sensor_name ++ ": " ++ fmtFixed 2 v.value ++ v.units
      let vop := DrawOp.text 5 y_pos voltage_text
      match dictGet readings "current" with
      | none =>
        let y2 := y_pos + 12 + 2
        if y2 > 44 then [vop] else vop :: voltageLines rest y2
      | some c =>
        let current_text := "  I: " ++ fmtFixed 1 c.value ++ c.units
        let cop := DrawOp.text 5 (y_pos + 12) current_text
        let y2 := y_pos + 12 + 12 + 2
        if y2 > 44 then [vop, cop] else vop :: cop :: voltageLines rest y2

/-- The second line and below of each `"  {name}"` sensor-name listing. -/
def namesOps : List String → Nat → List DrawOp
  | [], _ => []
  | n :: rest, y => DrawOp.text 5 y ("  " ++ n) :: namesOps rest (y + 12)

/-- The no-voltage-data branch of `display_normal_voltage_monitor`:
`"No voltage sensors"`, then a description of the sensor subsystem.
`hasattr(self.rhapi, 'sensors') and self.rhapi.sensors.sensors_dict` is
false both for an absent subsystem and for an empty `sensors_dict`
(both fall to `"Sensor system"/"not available"`); a raise while reading
`sensors_dict` is caught to `"Sensor error"`.  The inner
`"No sensors found"` line of the source is unreachable (the dict was
just tested truthy), so it does not appear. -/
def noDataOps (api : RHApi) : List DrawOp :=
  DrawOp.text 5 20 "No voltage sensors" ::
    match api.sensors with
    | .absent =>
      [DrawOp.text 5 34 "Sensor system", DrawOp.text 5 46 "not available"]
    | .dictRaises => [DrawOp.text 5 34 "Sensor error"]
    | .avail sensors_dict =>
      if sensors_dict.isEmpty then
        [DrawOp.text 5 34 "Sensor system", DrawOp.text 5 46 "not available"]
      else
        let sensor_names := sensors_dict.map Prod.fst
        DrawOp.text 5 34 s!"Sensors: {sensor_names.length}" ::
          namesOps (sensor_names.take 2) 46

/-- `OLEDDisplay.display_normal_voltage_monitor`: race-status or generic
header, the sensor body (or the diagnostic `noDataOps` when
`voltage_data` is falsy), and the always-present timestamp footer at
`y = height - 12 = 52` (`clk` is the `time.strftime("%H:%M:%S")`
output). -/
def display_normal_voltage_monitor (api : RHApi)
    (voltage_data : Option (List (String × Readings))) (clk : String) :
    List DrawOp :=
  let header :=
    match get_race_status api with
    | some rs => [DrawOp.text 5 0 rs, DrawOp.line 0 15 128 15]
    | none => [DrawOp.text 5 0 "Voltage Monitor", DrawOp.line 0 15 128 15]
  let body :=
    match voltage_data with
    | none => noDataOps api
    | some vd => if vd.isEmpty then noDataOps api else voltageLines vd 20
  header ++ body ++ [DrawOp.text 5 52 clk]

/-! ### `display_burn_in_protection` (the BurnInGuard view) -/

/-- The primary-voltage scan of `display_burn_in_protection`: the first
sensor with the exact `'voltage'` key gives `f"{voltage:.1f}{units}"`;
sensors without it are passed over; none found leaves `"No Data"`. -/
def firstVoltageText : List (String × Readings) → String
  | [] => "No Data"
  | (_, readings) :: rest =>
    match dictGet readings "voltage" with
    | some v => fmtFixed 1 v.value ++ v.units
    | none => firstVoltageText rest

/-- `OLEDDisplay.display_burn_in_protection`: the abbreviated primary
voltage and the coarse `HH:MM` clock (`clk`), each at a pseudo-random
position; the positions `(voltage_x, voltage_y, time_x, time_y)` are
taken as parameters since the random source is external input. -/
def display_burn_in_protection (voltage_data : Option (List (String × Readings)))
    (clk : String) (voltage_x voltage_y time_x time_y : Nat) : List DrawOp :=
  let voltage_text :=
    match voltage_data with
    | none => "No Data"
    | some vd => if vd.isEmpty then "No Data" else firstVoltageText vd
  [DrawOp.text voltage_x voltage_y voltage_text, DrawOp.text time_x time_y clk]

/-! ### Shutdown (`stop_display_thread`, `cleanup`) -/

/-- The lifecycle fields `cleanup` touches: `thread_running`, whether
`self.display_thread` exists and `is_alive()`, and whether
`self.display` is set. -/
structure LifecycleState where
  thread_running : Bool
  thread_alive : Bool
  display : Bool
deriving DecidableEq

/-- The externally visible operations a shutdown can perform. -/
inductive CleanOp
  | joinThread
  | clearDisplay
deriving DecidableEq

/-- `OLEDDisplay.stop_display_thread`: clears `thread_running`, joins
the thread when it is alive.  A completed join leaves the thread dead
(the loop observes `thread_running = False` within the 2-second join
timeout, the claim's premise of a completed cleanup). -/
def stop_display_thread (s : LifecycleState) : LifecycleState × List CleanOp :=
  let s1 := { s with thread_running := false }
  if s1.thread_alive then
    ({ s1 with thread_alive := false }, [CleanOp.joinThread])
  else
    (s1, [])

/-- `OLEDDisplay.cleanup`: stop the thread, then `self.display.clear()`
when a display is present; every raise is caught, so the call always
returns. -/
def cleanup (s : LifecycleState) : LifecycleState × List CleanOp :=
  let r := stop_display_thread s
  if r.1.display then (r.1, r.2 ++ [CleanOp.clearDisplay]) else r

/-! ### Concrete fixtures used by witnesses and counterexamples -/

/-- A provider with no sensor system and no race object. -/
def apiNoRace : RHApi := ⟨SensorsState.absent, none⟩

/-- A provider reporting race status 2 (RACING). -/
def apiRunning : RHApi := ⟨SensorsState.absent, some ⟨PyRes.ok (some 2), PyRes.ok none⟩⟩

/-- An enabled controller with no pending lap event and
`voltage_monitor_start_time = 100`. -/
def csFresh : ControllerState := ⟨true, false, none, 0, 100, false⟩

/-- An enabled idle controller with `voltage_monitor_start_time = 2`. -/
def csIdle2 : ControllerState := ⟨true, false, none, 0, 2, false⟩

/-! ### Branch lemmas for `update_display` -/

lemma update_display_lap {now : ℚ} {api : RHApi} {s : ControllerState}
    (hen : s.display_enabled = true) (hsr : s.show_race_info = true)
    (ht : now < s.race_info_timeout) :
    update_display now api s = (s, some DisplayMode.LapNotice) := by
  simp [update_display, hen, hsr, ht]

lemma update_display_race {now : ℚ} {api : RHApi} {s : ControllerState}
    (hen : s.display_enabled = true)
    (hnl : ¬(s.show_race_info = true ∧ now < s.race_info_timeout))
    (hra : is_race_active api = true) :
    update_display now api s =
      ({ s with voltage_monitor_start_time := now }, some DisplayMode.RaceStanding) := by
  simp [update_display, hen, hnl, hra]

lemma update_display_idle_start {now : ℚ} {api : RHApi} {s : ControllerState}
    (hen : s.display_enabled = true)
    (hnl : ¬(s.show_race_info = true ∧ now < s.race_info_timeout))
    (hra : is_race_active api = false) :
    ((update_display now api s).1).voltage_monitor_start_time
      = (if s.voltage_monitor_start_time = 0 then now else s.voltage_monitor_start_time) := by
  simp only [update_display, hen, Bool.true_eq_false, if_false, if_neg hnl, hra,
    Bool.false_eq_true]
  split_ifs <;> simp_all

lemma update_display_idle_mode {now : ℚ} {api : RHApi} {s : ControllerState}
    (hen : s.display_enabled = true)
    (hnl : ¬(s.show_race_info = true ∧ now < s.race_info_timeout))
    (hra : is_race_active api = false) :
    (update_display now api s).2
      = some (if now - (if s.voltage_monitor_start_time = 0 then now
                        else s.voltage_monitor_start_time) > 60
              then DisplayMode.BurnInGuard else DisplayMode.VoltageMonitor) := by
  simp only [update_display, hen, Bool.true_eq_false, if_false, if_neg hnl, hra,
    Bool.false_eq_true]
  split_ifs <;> simp_all

lemma update_display_idle_state {now : ℚ} {api : RHApi} {s : ControllerState}
    (hen : s.display_enabled = true)
    (hnl : ¬(s.show_race_info = true ∧ now < s.race_info_timeout))
    (hra : is_race_active api = false) :
    (update_display now api s).1 =
      { s with show_race_info := false, last_lap_info := none,
               voltage_monitor_start_time :=
                 (if s.voltage_monitor_start_time = 0 then now
                  else s.voltage_monitor_start_time),
               burn_in_protection_active :=
                 decide (now - (if s.voltage_monitor_start_time = 0 then now
                                else s.voltage_monitor_start_time) > 60) } := by
  simp only [update_display, hen, Bool.true_eq_false, if_false, if_neg hnl, hra,
    Bool.false_eq_true]
  split_ifs <;> simp_all

lemma update_display_mode_ne_lap {now : ℚ} {api : RHApi} {s : ControllerState}
    (hnl : ¬(s.show_race_info = true ∧ now < s.race_info_timeout)) :
    (update_display now api s).2 ≠ some DisplayMode.LapNotice := by
  by_cases hen : s.display_enabled = true
  · cases hra : is_race_active api
    · rw [update_display_idle_mode hen hnl hra]
      split_ifs <;> simp
    · rw [update_display_race hen hnl hra]
      simp
  · simp [update_display, Bool.eq_false_iff.mpr (by simpa using hen)]

lemma update_display_preserves (now : ℚ) (api : RHApi) (s : ControllerState) :
    ((update_display now api s).1).display_enabled = s.display_enabled
    ∧ ((update_display now api s).1).race_info_timeout = s.race_info_timeout := by
  simp only [update_display]
  split_ifs <;> simp

/-- C1 helper: the witness state with a lap event injected at 200. -/
def csLap : ControllerState := show_lap_completion 200 "Red5" 3 "0:24.531" none csFresh

/-- **C1.** On every tick with the display enabled, `update_display`
selects exactly one mode, with the precedence: unexpired injected lap
event → `LapNotice` (race and voltage rendering suppressed — the call
returns right after `display_race_info`); else race status 1 or 2 →
`RaceStanding`; else the burn-in evaluation picks `BurnInGuard` or
`VoltageMonitor`. -/
theorem mode_precedence_c1 (now : ℚ) (api : RHApi) (s : ControllerState)
    (hen : s.display_enabled = true) :
    (∃ m, (update_display now api s).2 = some m)
    ∧ (s.show_race_info = true ∧ now < s.race_info_timeout →
        (update_display now api s).2 = some DisplayMode.LapNotice)
    ∧ (¬(s.show_race_info = true ∧ now < s.race_info_timeout) →
        is_race_active api = true →
        (update_display now api s).2 = some DisplayMode.RaceStanding)
    ∧ (¬(s.show_race_info = true ∧ now < s.race_info_timeout) →
        is_race_active api = false →
        (update_display now api s).2 = some DisplayMode.BurnInGuard
        ∨ (update_display now api s).2 = some DisplayMode.VoltageMonitor) := by
  refine ⟨?_, fun h => ?_, fun hnl hra => ?_, fun hnl hra => ?_⟩
  · by_cases hl : s.show_race_info = true ∧ now < s.race_info_timeout
    · exact ⟨_, by rw [update_display_lap hen hl.1 hl.2]⟩
    · cases hra : is_race_active api
      · exact ⟨_, update_display_idle_mode hen hl hra⟩
      · exact ⟨_, by rw [update_display_race hen hl hra]⟩
  · rw [update_display_lap hen h.1 h.2]
  · rw [update_display_race hen hnl hra]
  · rw [update_display_idle_mode hen hnl hra]
    split_ifs <;> simp

/-- C1 witness: with a lap event injected at 200 (timeout 205) and the
race RACING, the tick at 204 still renders `LapNotice` (lap precedence
over racing). -/
theorem mode_precedence_c1_witness :
    (update_display 204 apiRunning csLap).2 = some DisplayMode.LapNotice :=
  (mode_precedence_c1 204 apiRunning csLap rfl).2.1 ⟨rfl, by norm_num [csLap, show_lap_completion, csFresh]⟩

/-- **C3 counterexample.** At a continuous idle duration of exactly 60
seconds (start 100, now 160) the tick renders `VoltageMonitor`, although
the claim's `≥ 60` threshold demands `BurnInGuard`: the source compares
with strict `voltage_monitor_duration > 60`. -/
theorem burn_in_threshold_c3_cex :
    (update_display 160 apiNoRace csFresh).2 = some DisplayMode.VoltageMonitor
    ∧ (160 : ℚ) - csFresh.voltage_monitor_start_time ≥ 60 := by
  constructor
  · norm_num [update_display, csFresh, is_race_active, apiNoRace]
  · norm_num [csFresh]

/-- **C3 (amended).** On an idle tick (no unexpired lap event, race not
Staging/Racing, nonzero idle-start timestamp), `BurnInGuard` is entered
iff the idle duration `now - voltage_monitor_start_time` is **strictly
greater than** 60 seconds; otherwise `VoltageMonitor` renders. -/
theorem burn_in_threshold_c3 (now : ℚ) (api : RHApi) (s : ControllerState)
    (hen : s.display_enabled = true)
    (hnl : ¬(s.show_race_info = true ∧ now < s.race_info_timeout))
    (hra : is_race_active api = false)
    (hst : s.voltage_monitor_start_time ≠ 0) :
    ((update_display now api s).2 = some DisplayMode.BurnInGuard
      ↔ now - s.voltage_monitor_start_time > 60)
    ∧ ((update_display now api s).2 = some DisplayMode.VoltageMonitor
      ↔ ¬(now - s.voltage_monitor_start_time > 60)) := by
  rw [update_display_idle_mode hen hnl hra, if_neg hst]
  constructor <;> split_ifs <;> simp_all

/-- C3 witness: idle duration 61 (start 100, now 161) does enter
`BurnInGuard`. -/
theorem burn_in_threshold_c3_witness :
    (update_display 161 apiNoRace csFresh).2 = some DisplayMode.BurnInGuard :=
  (burn_in_threshold_c3 161 apiNoRace csFresh rfl (by simp [csFresh])
    (by decide) (by norm_num [csFresh])).1.mpr (by norm_num [csFresh])

/-- **C4 counterexample.** A tick at time 3 renders `VoltageMonitor`;
a lap event injected at time 4 makes the tick at time 5 leave
`VoltageMonitor` for `LapNotice`, yet `voltage_monitor_start_time`
stays 2 — it is **not** reset to the current time 5 as the claim
demands. -/
theorem idle_timer_c4_cex :
    (update_display 3 apiNoRace csIdle2).2 = some DisplayMode.VoltageMonitor
    ∧ (update_display 5 apiNoRace
        (show_lap_completion 4 "Red5" 3 "0:24.531" none
          (update_display 3 apiNoRace csIdle2).1)).2 = some DisplayMode.LapNotice
    ∧ ((update_display 5 apiNoRace
        (show_lap_completion 4 "Red5" 3 "0:24.531" none
          (update_display 3 apiNoRace csIdle2).1)).1).voltage_monitor_start_time = 2
    ∧ (2 : ℚ) ≠ 5 := by
  have h1 : (update_display 3 apiNoRace csIdle2).1 = csIdle2 := by
    rw [update_display_idle_state rfl (by simp [csIdle2]) (by rfl)]
    simp only [csIdle2, ControllerState.mk.injEq]
    norm_num
  have hmode : (update_display 3 apiNoRace csIdle2).2 = some DisplayMode.VoltageMonitor := by
    rw [update_display_idle_mode rfl (by simp [csIdle2]) (by rfl)]
    norm_num [csIdle2]
  rw [h1]
  have h2 : update_display 5 apiNoRace
      (show_lap_completion 4 "Red5" 3 "0:24.531" none csIdle2)
      = (show_lap_completion 4 "Red5" 3 "0:24.531" none csIdle2,
         some DisplayMode.LapNotice) :=
    update_display_lap rfl rfl (by norm_num [show_lap_completion, csIdle2])
  refine ⟨hmode, by rw [h2], ?_, by norm_num⟩
  rw [h2]
  norm_num [show_lap_completion, csIdle2]

/-- **C4 (amended).** `voltage_monitor_start_time` is reset to `now` on
every tick that selects `RaceStanding`; it is **not** touched on a
`LapNotice` tick; on an idle tick it is reset only when it currently
equals 0 (which cannot arise after `__init__` sets it to the start
time); the burn-in comparison on an idle tick is `now` minus the
(possibly just-adjusted) timestamp, strict at 60. -/
theorem idle_timer_c4 (now : ℚ) (api : RHApi) (s : ControllerState)
    (hen : s.display_enabled = true) :
    (s.show_race_info = true ∧ now < s.race_info_timeout →
      ((update_display now api s).1).voltage_monitor_start_time
        = s.voltage_monitor_start_time)
    ∧ (¬(s.show_race_info = true ∧ now < s.race_info_timeout) →
        is_race_active api = true →
        ((update_display now api s).1).voltage_monitor_start_time = now)
    ∧ (¬(s.show_race_info = true ∧ now < s.race_info_timeout) →
        is_race_active api = false →
        ((update_display now api s).1).voltage_monitor_start_time
          = (if s.voltage_monitor_start_time = 0 then now
             else s.voltage_monitor_start_time)
        ∧ ((update_display now api s).2 = some DisplayMode.BurnInGuard
            ↔ now - ((update_display now api s).1).voltage_monitor_start_time > 60)) := by
  refine ⟨fun h => ?_, fun hnl hra => ?_, fun hnl hra => ?_⟩
  · rw [update_display_lap hen h.1 h.2]
  · rw [update_display_race hen hnl hra]
  · refine ⟨update_display_idle_start hen hnl hra, ?_⟩
    rw [update_display_idle_mode hen hnl hra, update_display_idle_start hen hnl hra]
    split_ifs <;> simp_all

/-- C4 witness: on the `LapNotice` tick at 204, the timestamp keeps its
old value 100. -/
theorem idle_timer_c4_witness :
    ((update_display 204 apiNoRace csLap).1).voltage_monitor_start_time
      = csLap.voltage_monitor_start_time :=
  (idle_timer_c4 204 apiNoRace csLap rfl).1 ⟨rfl, by norm_num [csLap, show_lap_completion, csFresh]⟩

/-! ### Tick traces (C2) -/

lemma tickModes_append (s : ControllerState) (a b : List (ℚ × RHApi)) :
    tickModes s (a ++ b) = tickModes s a ++ tickModes (runTicks s a) b := by
  induction a generalizing s with
  | nil => simp [tickModes, runTicks]
  | cons p rest ih =>
    cases p
    simp [tickModes, runTicks, ih]

/-- While every tick time stays below the armed timeout, each tick
renders `LapNotice` and the state is untouched. -/
lemma tickModes_lap_hold (T : ℚ) (pn : String) (ln : Nat) (lt : String)
    (pos : Option Nat) (s0 : ControllerState) (hen : s0.display_enabled = true)
    (early : List (ℚ × RHApi)) (hearly : ∀ p ∈ early, p.1 < T + 5) :
    tickModes (show_lap_completion T pn ln lt pos s0) early
      = List.replicate early.length (some DisplayMode.LapNotice)
    ∧ runTicks (show_lap_completion T pn ln lt pos s0) early
      = show_lap_completion T pn ln lt pos s0 := by
  induction early with
  | nil => exact ⟨rfl, rfl⟩
  | cons p rest ih =>
    obtain ⟨t, api⟩ := p
    have hu : update_display t api (show_lap_completion T pn ln lt pos s0)
        = (show_lap_completion T pn ln lt pos s0, some DisplayMode.LapNotice) :=
      update_display_lap (by simpa [show_lap_completion] using hen)
        (by simp [show_lap_completion])
        (by simpa [show_lap_completion] using hearly (t, api) (by simp))
    have ihr := ih (fun q hq => hearly q (by simp [hq]))
    refine ⟨?_, ?_⟩
    · simp only [tickModes, hu, List.length_cons, List.replicate_succ]
      exact congrArg _ ihr.1
    · simp only [runTicks, hu]
      exact ihr.2

/-- Once every tick time is at or past the armed timeout, no tick ever
renders `LapNotice` again (the timeout field is never rewritten by
ticks). -/
lemma tickModes_no_lap (lo : ℚ) (late : List (ℚ × RHApi)) :
    ∀ s : ControllerState, s.race_info_timeout ≤ lo →
      (∀ p ∈ late, lo ≤ p.1) →
      ∀ m ∈ tickModes s late, m ≠ some DisplayMode.LapNotice := by
  induction late with
  | nil => intro s _ _ m hm; simp [tickModes] at hm
  | cons p rest ih =>
    obtain ⟨t, api⟩ := p
    intro s hto hlate m hm
    simp only [tickModes, List.mem_cons] at hm
    rcases hm with rfl | hm
    · exact update_display_mode_ne_lap
        (fun h => absurd h.2 (not_lt.mpr (le_trans hto (hlate (t, api) (by simp)))))
    · exact ih (update_display t api s).1
        (by rw [(update_display_preserves t api s).2]; exact hto)
        (fun q hq => hlate q (by simp [hq])) m hm

/-- **C2.** A lap event accepted by `show_lap_completion` at time `T`:
every tick whose evaluation time lies in `[T, T+5)` renders `LapNotice`
(and leaves the controller state unchanged), and — time being monotonic,
so the in-window ticks precede the rest — no tick at or after `T+5`
renders `LapNotice`, however the tick times align with the window. -/
theorem lap_window_c2 (s0 : ControllerState) (T : ℚ) (pn : String) (ln : Nat)
    (lt : String) (pos : Option Nat) (early late : List (ℚ × RHApi))
    (hen : s0.display_enabled = true)
    (hearly : ∀ p ∈ early, T ≤ p.1 ∧ p.1 < T + 5)
    (hlate : ∀ p ∈ late, T + 5 ≤ p.1) :
    tickModes (show_lap_completion T pn ln lt pos s0) (early ++ late)
      = List.replicate early.length (some DisplayMode.LapNotice)
        ++ tickModes (show_lap_completion T pn ln lt pos s0) late
    ∧ ∀ m ∈ tickModes (show_lap_completion T pn ln lt pos s0) late,
        m ≠ some DisplayMode.LapNotice := by
  have hold := tickModes_lap_hold T pn ln lt pos s0 hen early
    (fun p hp => (hearly p hp).2)
  constructor
  · rw [tickModes_append, hold.1, hold.2]
  · exact tickModes_no_lap (T + 5) late (show_lap_completion T pn ln lt pos s0)
      (by simp [show_lap_completion]) hlate

/-- C2 witness: event at 200, in-window ticks at 200 and 204 (one of
them during an active race), out-of-window ticks at 205 and 300. -/
theorem lap_window_c2_witness :
    tickModes (show_lap_completion 200 "Red5" 3 "0:24.531" none csFresh)
        ([(200, apiNoRace), (204, apiRunning)] ++ [(205, apiRunning), (300, apiNoRace)])
      = List.replicate 2 (some DisplayMode.LapNotice)
        ++ tickModes (show_lap_completion 200 "Red5" 3 "0:24.531" none csFresh)
            [(205, apiRunning), (300, apiNoRace)]
    ∧ ∀ m ∈ tickModes (show_lap_completion 200 "Red5" 3 "0:24.531" none csFresh)
          [(205, apiRunning), (300, apiNoRace)],
        m ≠ some DisplayMode.LapNotice := by
  have h := lap_window_c2 csFresh 200 "Red5" 3 "0:24.531" none
    [(200, apiNoRace), (204, apiRunning)] [(205, apiRunning), (300, apiNoRace)]
    rfl (by intro p hp; fin_cases hp <;> constructor <;> norm_num)
    (by intro p hp; fin_cases hp <;> norm_num)
  simpa using h

/-! ### C5: the no-sensor diagnostic -/

/-- **C5 counterexample.** The claim requires the diagnostic to
distinguish a sensor subsystem that is absent from one that is present
but empty; the code renders the identical
`"Sensor system"/"not available"` frame for both provider states. -/
theorem no_sensor_diag_c5_cex :
    display_normal_voltage_monitor ⟨SensorsState.absent, none⟩ none "12:00:00"
      = display_normal_voltage_monitor ⟨SensorsState.avail [], none⟩ none "12:00:00"
    ∧ (⟨SensorsState.absent, none⟩ : RHApi) ≠ ⟨SensorsState.avail [], none⟩ := by
  constructor
  · rfl
  · intro h
    cases h

/-- **C5 (amended).** Whenever the adapter yields no voltage data, the
`VoltageMonitor` frame is never blank: it always carries the
`"No voltage sensors"` diagnostic plus a sensor-subsystem description
and the timestamp footer (and the embedded render function is total, so
no exception reaches the caller); however, the subsystem-absent and
present-but-empty states produce the same description. -/
theorem no_sensor_diag_c5 (api : RHApi) (clk : String) :
    display_normal_voltage_monitor api none clk ≠ []
    ∧ DrawOp.text 5 20 "No voltage sensors" ∈ display_normal_voltage_monitor api none clk
    ∧ DrawOp.text 5 52 clk ∈ display_normal_voltage_monitor api none clk := by
  obtain ⟨ss, race⟩ := api
  refine ⟨?_, ?_, ?_⟩ <;>
    cases hr : get_race_status ⟨ss, race⟩ <;>
      cases ss <;>
        simp [display_normal_voltage_monitor, noDataOps, hr]

/-! ### C6: adapter totality and `None` results -/

/-- **C6.** `get_voltage_data` and `get_race_status` are total functions
of the provider state (every raising access is a modelled case, so no
exception propagates), return `none` for an absent or raising provider,
and `get_voltage_data` returns `none` whenever no sensor passes the
voltage filter; `is_race_active` likewise degrades to `false`. -/
theorem adapter_none_c6 :
    (∀ r, get_voltage_data ⟨SensorsState.absent, r⟩ = none)
    ∧ (∀ r, get_voltage_data ⟨SensorsState.dictRaises, r⟩ = none)
    ∧ (∀ d r, (∀ p ∈ d, sensorKeeps p.2 = none) →
        get_voltage_data ⟨SensorsState.avail d, r⟩ = none)
    ∧ (∀ ss, get_race_status ⟨ss, none⟩ = none ∧ is_race_active ⟨ss, none⟩ = false)
    ∧ (∀ ss res, get_race_status ⟨ss, some ⟨PyRes.raises, res⟩⟩ = none
        ∧ is_race_active ⟨ss, some ⟨PyRes.raises, res⟩⟩ = false) := by
  refine ⟨fun r => rfl, fun r => rfl, fun d r h => ?_, fun ss => ⟨rfl, rfl⟩,
    fun ss res => ⟨rfl, rfl⟩⟩
  have hf : d.filterMap (fun p => (sensorKeeps p.2).map (fun rd => (p.1, rd))) = [] :=
    List.filterMap_eq_nil_iff.mpr (fun p hp => by rw [h p hp]; rfl)
  simp [get_voltage_data, hf]

/-- C6 witness: a dict with a voltage-free sensor and a raising sensor
yields `none`. -/
theorem adapter_none_c6_witness :
    get_voltage_data ⟨SensorsState.avail
      [("Temp", ⟨true, PyRes.ok (some [("temperature", ⟨25, "C"⟩)])⟩),
       ("Bad", ⟨true, PyRes.raises⟩)], none⟩ = none :=
  adapter_none_c6.2.2.1 _ none (by intro p hp; fin_cases hp <;> rfl)

/-! ### C7: the standings view -/

/-- A race with status 2 whose results hold `'by_race_time'` mapped to an
empty list. -/
def apiEmptyStandings : RHApi :=
  ⟨SensorsState.absent, some ⟨PyRes.ok (some 2), PyRes.ok (some ⟨some []⟩)⟩⟩

lemma standingsOps_length (lst : List PilotResult) :
    ∀ i, (standingsOps i lst).length ≤ 4 - i := by
  induction lst with
  | nil => intro i; simp [standingsOps]
  | cons p rest ih =>
    intro i
    by_cases h : i ≥ 4
    · simp [standingsOps, h]
    · simp only [standingsOps, if_neg h, List.length_cons]
      have := ih (i + 1)
      omega

/-- **C7 counterexample.** With `results = {'by_race_time': []}` — no
standings available — the frame is the bare header: neither standings
lines nor the two-line waiting placeholder are rendered (the placeholder
only covers a falsy `results` or a missing `'by_race_time'` key). -/
theorem standings_render_c7_cex :
    display_race_status true apiEmptyStandings
      = [DrawOp.text 5 0 "Race: Running", DrawOp.line 0 13 128 13]
    ∧ DrawOp.text 5 16 "Waiting for" ∉ display_race_status true apiEmptyStandings := by
  refine ⟨rfl, ?_⟩
  intro hmem
  rw [show display_race_status true apiEmptyStandings
      = [DrawOp.text 5 0 "Race: Running", DrawOp.line 0 13 128 13] from rfl] at hmem
  simp at hmem

/-- **C7 (amended).** In the RaceStanding view: the body holds at most 4
standings lines, the `i`-th formatted `<rank>.<name> <best-lap>` with the
display name truncated to its first 6 characters when longer (standings
view only — the lap-notice view renders the full name) and a leading
`"0:"` stripped from the best-lap text; the two-line waiting placeholder
is rendered exactly when `results` is falsy or lacks `'by_race_time'` —
an empty standings list under the key renders an empty body instead. -/
theorem standings_render_c7 :
    (∀ (api : RHApi) (r : Race) (res : RaceResults) (lst : List PilotResult),
      api.race = some r → r.results = PyRes.ok (some res) →
      res.by_race_time = some lst →
      display_race_status true api
        = [DrawOp.text 5 0 ((get_race_status api).getD "Race Active"),
           DrawOp.line 0 13 128 13] ++ standingsOps 0 (lst.take 4))
    ∧ (∀ lst : List PilotResult, (standingsOps 0 lst).length ≤ 4)
    ∧ (∀ (i : Nat) (p : PilotResult),
        fmtStandingLine i p
          = toString (i + 1) ++ "." ++ truncatedName (standingPilotName p)
            ++ " " ++ strippedLap (p.fastest_lap.getD "N/A"))
    ∧ (∀ s : String, 6 < s.length → truncatedName s = s.take 6)
    ∧ (∀ s : String, listStartsWith "0:".toList s.toList = true → s ≠ "N/A" → s ≠ "" →
        strippedLap s = s.drop 2)
    ∧ (∀ (api : RHApi) (r : Race), api.race = some r → r.results = PyRes.ok none →
        display_race_status true api
          = [DrawOp.text 5 0 ((get_race_status api).getD "Race Active"),
             DrawOp.line 0 13 128 13,
             DrawOp.text 5 16 "Waiting for", DrawOp.text 5 26 "race data..."])
    ∧ (∀ (api : RHApi) (r : Race) (res : RaceResults), api.race = some r →
        r.results = PyRes.ok (some res) → res.by_race_time = none →
        display_race_status true api
          = [DrawOp.text 5 0 ((get_race_status api).getD "Race Active"),
             DrawOp.line 0 13 128 13,
             DrawOp.text 5 16 "Waiting for", DrawOp.text 5 26 "race data..."])
    ∧ (∀ info : LapInfo,
        DrawOp.text 5 18 ("Pilot: " ++ info.pilot_name)
          ∈ display_race_info true (some info)) := by
  refine ⟨?_, ?_, ?_, ?_, ?_, ?_, ?_, ?_⟩
  · intro api r res lst h1 h2 h3
    simp [display_race_status, h1, h2, h3]
  · intro lst
    simpa using standingsOps_length lst 0
  · intro i p
    simp only [fmtStandingLine]
    simp [String.append_assoc, instToStringString]
  · intro s h
    simp [truncatedName, h]
  · intro s h1 h2 h3
    simp only [strippedLap]
    rw [if_pos (show s ≠ "" ∧ s ≠ "N/A" from ⟨h3, h2⟩), if_pos h1]
  · intro api r h1 h2
    simp [display_race_status, h1, h2]
  · intro api r res h1 h2 h3
    simp [display_race_status, h1, h2, h3]
  · intro info
    simp [display_race_info]

/-- C7 witness: a 9-character name is truncated to its first 6
characters, and a sub-minute lap time loses its `"0:"` prefix. -/
theorem standings_render_c7_witness :
    truncatedName "Whiskey77" = "Whiskey77".take 6
    ∧ strippedLap "0:24.531" = "0:24.531".drop 2 :=
  ⟨standings_render_c7.2.2.2.1 "Whiskey77" (by decide),
   standings_render_c7.2.2.2.2.1 "0:24.531" (by decide) (by decide) (by decide)⟩

/-! ### C8: the position line of the LapNotice view -/

/-- **C8 (code bug).** `show_lap_completion` always stores the
`'position'` key — with the value `None` when no position was supplied —
so `display_race_info`'s `'position' in self.last_lap_info` test is
always true and the notice for a lap event without a position renders a
`"Position: None"` line, where the claim (and the source's own
`# Position if available` comment) wants no position line.  The header,
pilot, lap and time lines and the absence of a timestamp footer are as
claimed. -/
theorem lap_notice_position_c8 :
    display_race_info true
        ((show_lap_completion 200 "Red5" 3 "0:24.531" none csFresh).last_lap_info)
      = [ DrawOp.text 5 0 "LAP COMPLETED",
          DrawOp.line 0 13 128 13,
          DrawOp.text 5 18 "Pilot: Red5",
          DrawOp.text 5 30 "Lap: 3",
          DrawOp.text 5 42 "Time: 0:24.531",
          DrawOp.text 5 54 "Position: None" ] := by
  rfl

/-! ### C9: shutdown idempotence -/

/-- **C9 counterexample.** Immediately after a completed `cleanup` (from
a running controller with a display attached), a second `cleanup` call
still performs an operation: it issues `display.clear()` again, because
`cleanup` never drops `self.display`. -/
theorem cleanup_idem_c9_cex :
    (cleanup (cleanup ⟨true, true, true⟩).1).2 ≠ [] := by
  decide

/-- **C9 (amended).** A second `cleanup` right after a completed one is
idempotent on the state (the state is a fixed point) and performs no
thread join, and — every raise being caught — returns normally; but it
repeats `display.clear()` whenever a display is attached, so it is not
operation-free. -/
theorem cleanup_idem_c9 (s : LifecycleState) :
    (cleanup (cleanup s).1).1 = (cleanup s).1
    ∧ CleanOp.joinThread ∉ (cleanup (cleanup s).1).2
    ∧ (cleanup (cleanup s).1).2
        = (if (cleanup s).1.display then [CleanOp.clearDisplay] else []) := by
  obtain ⟨tr, ta, d⟩ := s
  cases tr <;> cases ta <;> cases d <;> decide

/-! ### C10: voltage-like keys that never render -/

lemma voltageLines_skip (name : String) (readings : Readings)
    (hexact : dictGet readings "voltage" = none) :
    ∀ (vpre vpost : List (String × Readings)) (y : Nat),
      voltageLines (vpre ++ (name, readings) :: vpost) y
        = voltageLines (vpre ++ vpost) y := by
  intro vpre
  induction vpre with
  | nil =>
    intro vpost y
    simp [voltageLines, hexact]
  | cons q rest ih =>
    intro vpost y
    obtain ⟨n2, r2⟩ := q
    simp only [List.cons_append, voltageLines]
    cases hv : dictGet r2 "voltage" with
    | none => exact ih vpost y
    | some v =>
      cases hc : dictGet r2 "current" with
      | none => split_ifs <;> simp [ih]
      | some c => split_ifs <;> simp [ih]

lemma firstVoltageText_skip (name : String) (readings : Readings)
    (hexact : dictGet readings "voltage" = none) :
    ∀ (vpre vpost : List (String × Readings)),
      firstVoltageText (vpre ++ (name, readings) :: vpost)
        = firstVoltageText (vpre ++ vpost) := by
  intro vpre
  induction vpre with
  | nil =>
    intro vpost
    simp [firstVoltageText, hexact]
  | cons q rest ih =>
    intro vpost
    obtain ⟨n2, r2⟩ := q
    simp only [List.cons_append, firstVoltageText]
    cases hv : dictGet r2 "voltage" <;> simp [hv, ih]

/-- **C10.** A sensor whose readings dict has a key containing
`"voltage"` case-insensitively but no key exactly `'voltage'` passes
`get_voltage_data`'s `any(...)` filter and lands in the snapshot, yet
the exact-key lookups of the render paths ignore it: the normal monitor
draws no reading line for it, and the burn-in view never picks it as the
primary voltage reading. -/
theorem voltage_key_mismatch_c10 (name : String) (readings : Readings)
    (race : Option Race) (pre post : List (String × Sensor))
    (vpre vpost : List (String × Readings)) (y : Nat)
    (hsub : readings.any (fun kv => containsVoltage kv.1) = true)
    (hne : readings ≠ [])
    (hexact : dictGet readings "voltage" = none) :
    (∃ vd, get_voltage_data
        ⟨SensorsState.avail
          (pre ++ (name, ⟨true, PyRes.ok (some readings)⟩) :: post), race⟩
        = some vd ∧ (name, readings) ∈ vd)
    ∧ voltageLines (vpre ++ (name, readings) :: vpost) y
        = voltageLines (vpre ++ vpost) y
    ∧ firstVoltageText (vpre ++ (name, readings) :: vpost)
        = firstVoltageText (vpre ++ vpost) := by
  refine ⟨?_, voltageLines_skip name readings hexact vpre vpost y,
    firstVoltageText_skip name readings hexact vpre vpost⟩
  have hie : readings.isEmpty = false := by
    cases readings with
    | nil => exact absurd rfl hne
    | cons a as => rfl
  have hks : sensorKeeps ⟨true, PyRes.ok (some readings)⟩ = some readings := by
    simp [sensorKeeps, hsub, hie]
  have hmem : (name, readings) ∈
      (pre ++ (name, (⟨true, PyRes.ok (some readings)⟩ : Sensor)) :: post).filterMap
        (fun p => (sensorKeeps p.2).map (fun r => (p.1, r))) :=
    List.mem_filterMap.mpr ⟨(name, ⟨true, PyRes.ok (some readings)⟩), by simp,
      by simp [hks]⟩
  have hsdne :
      (pre ++ (name, (⟨true, PyRes.ok (some readings)⟩ : Sensor)) :: post).isEmpty
        = false := by
    simp
  refine ⟨_, ?_, hmem⟩
  have hvne : ((pre ++ (name, (⟨true, PyRes.ok (some readings)⟩ : Sensor)) :: post).filterMap
      (fun p => (sensorKeeps p.2).map (fun r => (p.1, r)))).isEmpty = false :=
    List.isEmpty_eq_false.mpr (List.ne_nil_of_mem hmem)
  simp [get_voltage_data, hsdne, hvne]
  intro h1 h2
  exact Option.noConfusion (hks.symm.trans h2)

/-- C10 witness: a sensor with only a `"Voltage"` key is in the
snapshot, draws no line in the normal monitor, and is not the burn-in
primary reading. -/
theorem voltage_key_mismatch_c10_witness :
    (∃ vd, get_voltage_data
        ⟨SensorsState.avail
          ([] ++ ("Battery", ⟨true, PyRes.ok (some [("Voltage", ⟨74/10, "V"⟩)])⟩) :: []),
         none⟩
        = some vd ∧ ("Battery", [("Voltage", ⟨74/10, "V"⟩)]) ∈ vd)
    ∧ voltageLines
        ([("B2", [("voltage", ⟨33/10, "V"⟩)])]
          ++ ("Battery", [("Voltage", ⟨74/10, "V"⟩)]) :: []) 20
        = voltageLines ([("B2", [("voltage", ⟨33/10, "V"⟩)])] ++ []) 20
    ∧ firstVoltageText
        ([("B2", [("voltage", ⟨33/10, "V"⟩)])]
          ++ ("Battery", [("Voltage", ⟨74/10, "V"⟩)]) :: [])
        = firstVoltageText ([("B2", [("voltage", ⟨33/10, "V"⟩)])] ++ []) :=
  voltage_key_mismatch_c10 "Battery" [("Voltage", ⟨74/10, "V"⟩)] none [] []
    [("B2", [("voltage", ⟨33/10, "V"⟩)])] [] 20 (by decide) (by decide) (by decide)

end OledRH
